import Mathlib

/-!
Verification development for the english-pal-bot repository.

The definitions below are a shallow embedding of the core of the bot:

* `Cache`, `Cache.reset`, `Cache.hasMore`, `getNextPage` embed the page
  cache of `src/app/utils/cacheUtils.ts` (the `cache` object and the
  `getNextPage` function).  The external Notion fetch
  (`getFormattedDatabasePages`, whose source file is not part of the
  sources) is passed in as a parameter returning `Option` (`none`
  models a thrown fetch error).
* `UserState`, `BotState`, `handleTextEvent` embed the webhook handler of
  `src/app/api/webhook/route.ts`: the module-level `userState` and
  `currentWord` variables together with the cache form the state, and
  `handleTextEvent` is the processing of a single inbound text-message
  event by `POST`.  The Notion progress update
  (`updateMemorizationStatus`) is modelled by a boolean parameter saying
  whether the call succeeds; the call itself is recorded in
  `progressCalls`.
* `formatMessage` embeds `formatMessage` of `src/app/utils/generalUtils.ts`.
* `isValidButtonLabel` and the derived `classifyInput` embed the label
  check of `route.ts` and the branch structure of `POST`.

Replies are modelled as lists of reply batches (one batch per
`client.replyMessage` call, each batch a list of message texts).
`errored` records that an exception escaped the event handler, in which
case `POST` answers the webhook request with an HTTP 500 error and sends
no reply message.
-/

namespace EnglishPalBot

/-- Properties of a Notion page, from `src/app/types/notionTypes.ts`
(the fields used by the webhook handler and by `formatMessage`). -/
structure NotionPageProperties where
  phrase : String
  meaning : String
  «example» : String
  pronunciationCheck : Bool
  category : List String
  lastStudied : String
  memorized : String
  url : String
deriving Repr, DecidableEq

/-- A Notion page (one flashcard), from `src/app/types/notionTypes.ts`. -/
structure NotionPage where
  id : String
  url : String
  properties : NotionPageProperties
deriving Repr, DecidableEq

/-- Shape of the answer of `getFormattedDatabasePages`: one batch of pages
plus the pagination cursor. -/
structure NotionApiResponse where
  results : List NotionPage
  next_cursor : Option String
deriving Repr, DecidableEq

/-- The page cache state of `src/app/utils/cacheUtils.ts`: the module-level
`cache` object with fields `data`, `nextCursor` and `currentIndex`. -/
structure Cache where
  data : List NotionPage
  nextCursor : Option String
  currentIndex : Nat
deriving Repr, DecidableEq

/-- `cache.reset()` from `cacheUtils.ts`: clears the data, the cursor and
the index (the deletion of generated audio files is an external side
effect with no bearing on the cache state). -/
def Cache.reset (_c : Cache) : Cache :=
  { data := [], nextCursor := none, currentIndex := 0 }

/-- `cache.hasMore()` from `cacheUtils.ts`. -/
def Cache.hasMore (c : Cache) : Bool :=
  decide (c.currentIndex < c.data.length) || c.nextCursor.isSome

/-- The initial cache state: `data: [], nextCursor: null, currentIndex: 0`. -/
def initialCache : Cache :=
  { data := [], nextCursor := none, currentIndex := 0 }

/-- Result of one `getNextPage` call: `ok p` is a normal return of `p`
(`ok none` is the `null` return meaning the deck is complete),
`fetchError` is the rethrown `Error("Failed to fetch the next page.")`. -/
inductive PageResult where
  | ok : Option NotionPage → PageResult
  | fetchError : PageResult
deriving Repr, DecidableEq

/-- Outcome of one `getNextPage` call: the returned value, the cache state
after the call, and how many times the fetch was invoked during the call. -/
structure NextPageOutcome where
  result : PageResult
  cache : Cache
  fetchCalls : Nat
deriving Repr, DecidableEq

/-- `getNextPage` from `src/app/utils/cacheUtils.ts`, as a state
transformer on the cache.  `fetchPage` models
`getFormattedDatabasePages`; `fetchPage cur = none` models a thrown
fetch error.  Mirrors the source: if `currentIndex >= data.length` the
cursor is saved, the cache is reset, one fetch is made
(`nextCursor ?? undefined` becomes passing the saved cursor), on success
the new batch and cursor are installed and the index reset; an empty
batch returns `null`; otherwise `data[currentIndex]` is served and the
index incremented.  A thrown error is caught and rethrown as a fetch
error, with the cache left as it is at that point. -/
def getNextPage (fetchPage : Option String → Option NotionApiResponse)
    (c : Cache) : NextPageOutcome :=
  if c.data.length ≤ c.currentIndex then
    let nextCursor := c.nextCursor
    let c1 := c.reset
    match fetchPage nextCursor with
    | none => { result := .fetchError, cache := c1, fetchCalls := 1 }
    | some response =>
      let c2 : Cache :=
        { data := response.results
          nextCursor := response.next_cursor
          currentIndex := 0 }
      if c2.data.length = 0 then
        { result := .ok none, cache := c2, fetchCalls := 1 }
      else
        { result := .ok c2.data[c2.currentIndex]?
          cache := { c2 with currentIndex := c2.currentIndex + 1 }
          fetchCalls := 1 }
  else
    { result := .ok c.data[c.currentIndex]?
      cache := { c with currentIndex := c.currentIndex + 1 }
      fetchCalls := 0 }

/-- A sequence of `getNextPage` calls, one fetch oracle per call; returns
the per-call results, the final cache and the total number of fetches. -/
def runNexts (fs : List (Option String → Option NotionApiResponse))
    (c : Cache) : List PageResult × Cache × Nat :=
  match fs with
  | [] => ([], c, 0)
  | f :: rest =>
    let o := getNextPage f c
    let r := runNexts rest o.cache
    (o.result :: r.1, r.2.1, o.fetchCalls + r.2.2)

/-- The `userState` variable of `src/app/api/webhook/route.ts`. -/
inductive UserState where
  | notDisplayed
  | notUnderstood
  | understood
deriving Repr, DecidableEq

/-- The mutable state the webhook handler works on: the module-level
`userState` and `currentWord` variables of `route.ts` together with the
module-level `cache` of `cacheUtils.ts`.  All three are process-wide
globals shared by every conversation. -/
structure BotState where
  userState : UserState
  currentWord : Option NotionPage
  cache : Cache
deriving Repr, DecidableEq

/-- The state at module load: `userState = "NotDisplayed"`,
`currentWord = null`, empty cache. -/
def initialBotState : BotState :=
  { userState := .notDisplayed, currentWord := none, cache := initialCache }

/-- The six `ButtonLabel` enum values of `route.ts`, in declaration order. -/
def buttonLabelValues : List String :=
  ["Next", "Meaning", "Never Better", "Good", "So So", "Not At All"]

/-- The four feedback labels checked by the feedback branch of `POST`. -/
def feedbackLabelValues : List String :=
  ["Never Better", "Good", "So So", "Not At All"]

/-- `isValidButtonLabel` from `route.ts`:
`Object.values(ButtonLabel).includes(value)`. -/
def isValidButtonLabel (value : String) : Bool :=
  buttonLabelValues.contains value

/-- JavaScript `s || fallback` on strings: the fallback is used exactly
when `s` is empty. -/
def strOr (s fallback : String) : String :=
  if s = "" then fallback else s

/-- `formatMessage` from `src/app/utils/generalUtils.ts`. -/
def formatMessage (properties : NotionPageProperties) : String :=
  String.intercalate "\n\n"
    [ "- Meaning:\n" ++ strOr properties.meaning "Meaning not available"
    , "- Example:\n" ++ strOr properties.«example» "Example not available"
    , "- Pronunciation Check:\n" ++
        (if properties.pronunciationCheck then
          "⚠️ Pay special attention to pronunciation!"
        else
          "No special pronunciation issues.")
    , "- Category:\n" ++
        strOr (String.intercalate ", " properties.category) "No category specified."
    , "- Last Studied:\n" ++ strOr properties.lastStudied "Not studied yet."
    , "- Memorized:\n" ++ strOr properties.memorized "No progress recorded."
    , "- URL:\n" ++ strOr properties.url "No reference URL available." ]

/-- Reply sent for an unsupported message when no current word exists. -/
def unsupportedMessageText : String :=
  "The message you sent is not supported. Please press the \"Next\" button to fetch the next word."

/-- Reply sent when a Next press carries no user id. -/
def chatIdNotFoundText : String :=
  "Unable to process your request. Chat ID not found."

/-- Reply sent when `getNextPage` returns `null` (deck complete). -/
def deckCompleteText : String :=
  "No more words available. You have completed all the words!"

/-- Second message of the Meaning reply. -/
def meaningUrlText (w : NotionPage) : String :=
  "Notion URL:\n" ++ strOr w.url "No URL available"

/-- Third message of the Meaning reply. -/
def selectActionText : String :=
  "Please select an action:"

/-- Feedback reply when the Notion update succeeded. -/
def gradeSuccessText (userMessage : String) : String :=
  "The button \"" ++ userMessage ++ "\" was pressed! It has been recorded successfully."

/-- Feedback reply when the Notion update failed. -/
def gradeFailureText (userMessage : String) : String :=
  "The button \"" ++ userMessage ++ "\" was pressed, but the update could not be completed. Please check it in Notion."

/-- Everything one processed text-message event produces: the state after
the event, the reply batches sent (one per `client.replyMessage` call),
the `updateMemorizationStatus` calls made (page id and pressed label),
the number of fetches made, and whether an exception escaped the event
handler (in which case `POST` answers HTTP 500 and no reply is sent). -/
structure HandlerResult where
  state : BotState
  replies : List (List String)
  progressCalls : List (String × String)
  fetchCalls : Nat
  errored : Bool
deriving Repr, DecidableEq

/-- A result that changes nothing and sends nothing: the silently ignored
branches of the state machine. -/
def noopResult (st : BotState) : HandlerResult :=
  { state := st, replies := [], progressCalls := [], fetchCalls := 0, errored := false }

/-- The processing of a single inbound text-message event by `POST` in
`src/app/api/webhook/route.ts`.  `fetchPage` models
`getFormattedDatabasePages` (via `getNextPage`), `updateOk` says whether
`updateMemorizationStatus` succeeds, `userId` is `event.source.userId`
and `userMessage` is `event.message.text`.  Mirrors the branch
structure of the source: unsupported message (with and without a current
word), Next (chat-id guard, fetch, card or deck-complete), Meaning
(guarded by `userState === "NotUnderstood" && currentWord`), feedback
labels (guarded by `userState === "Understood" && currentWord`; the
state is advanced before the update is attempted, and the reply text
depends on the update outcome). -/
def handleTextEvent (fetchPage : Option String → Option NotionApiResponse)
    (updateOk : Bool) (st : BotState) (userId : Option String)
    (userMessage : String) : HandlerResult :=
  if ¬ isValidButtonLabel userMessage then
    match st.currentWord with
    | none =>
      { state := { st with userState := .notDisplayed }
        replies := [[unsupportedMessageText]]
        progressCalls := [], fetchCalls := 0, errored := false }
    | some w =>
      { state := st
        replies := [[w.properties.phrase]]
        progressCalls := [], fetchCalls := 0, errored := false }
  else if userMessage = "Next" then
    match userId with
    | none =>
      { state := st
        replies := [[chatIdNotFoundText]]
        progressCalls := [], fetchCalls := 0, errored := false }
    | some _ =>
      let o := getNextPage fetchPage st.cache
      match o.result with
      | .fetchError =>
        { state := { st with cache := o.cache }
          replies := []
          progressCalls := [], fetchCalls := o.fetchCalls, errored := true }
      | .ok (some w) =>
        { state := { userState := .notUnderstood, currentWord := some w, cache := o.cache }
          replies := [[w.properties.phrase]]
          progressCalls := [], fetchCalls := o.fetchCalls, errored := false }
      | .ok none =>
        { state := { st with currentWord := none, cache := o.cache }
          replies := [[deckCompleteText]]
          progressCalls := [], fetchCalls := o.fetchCalls, errored := false }
  else if userMessage = "Meaning" then
    match st.userState, st.currentWord with
    | .notUnderstood, some w =>
      { state := { st with userState := .understood }
        replies := [[formatMessage w.properties, meaningUrlText w, selectActionText]]
        progressCalls := [], fetchCalls := 0, errored := false }
    | _, _ => noopResult st
  else if feedbackLabelValues.contains userMessage then
    match st.userState, st.currentWord with
    | .understood, some w =>
      { state := { st with userState := .notUnderstood }
        replies := [[if updateOk then gradeSuccessText userMessage else gradeFailureText userMessage]]
        progressCalls := [(w.id, userMessage)]
        fetchCalls := 0, errored := false }
    | _, _ => noopResult st
  else
    noopResult st

/-- The classified inbound inputs of the state machine. -/
inductive ClassifiedInput where
  | advance
  | reveal
  | grade : String → ClassifiedInput
  | unrecognized
deriving Repr, DecidableEq

/-- The input classification implicit in the branch structure of `POST`:
`isValidButtonLabel` gate first, then exact comparison with the `Next`
and `Meaning` labels, the remaining valid labels being the grades. -/
def classifyInput (s : String) : ClassifiedInput :=
  if ¬ isValidButtonLabel s then .unrecognized
  else if s = "Next" then .advance
  else if s = "Meaning" then .reveal
  else .grade s

/-- The states of the webhook process reachable from module load by any
sequence of processed text-message events (any fetch behaviour, any
update outcome, any user id, any message text). -/
inductive Reachable : BotState → Prop where
  | init : Reachable initialBotState
  | step (fetchPage : Option String → Option NotionApiResponse)
      (updateOk : Bool) (st : BotState) (userId : Option String)
      (userMessage : String) : Reachable st →
      Reachable (handleTextEvent fetchPage updateOk st userId userMessage).state

/-- Sample properties used by concrete runs. -/
def sampleProps (ph : String) : NotionPageProperties :=
  { phrase := ph, meaning := "m", «example» := "e", pronunciationCheck := false,
    category := [], lastStudied := "", memorized := "", url := "" }

/-- A first sample card. -/
def pageA : NotionPage :=
  { id := "idA", url := "uA", properties := sampleProps "phraseA" }

/-- A second sample card. -/
def pageB : NotionPage :=
  { id := "idB", url := "uB", properties := sampleProps "phraseB" }

/-- A content source holding a single two-card page with a terminal cursor:
every fetch returns `[pageA, pageB]` and `nextCursor = null`. -/
def fetchTwoCards : Option String → Option NotionApiResponse :=
  fun _ => some { results := [pageA, pageB], next_cursor := none }

/-- A content source holding a single one-card page with a terminal cursor. -/
def fetchOneCard : Option String → Option NotionApiResponse :=
  fun _ => some { results := [pageA], next_cursor := none }

/-- A content source whose fetch succeeds with an empty page. -/
def fetchEmptyPage : Option String → Option NotionApiResponse :=
  fun _ => some { results := [], next_cursor := none }

/-- A content source whose fetch always fails. -/
def fetchFail : Option String → Option NotionApiResponse :=
  fun _ => none

/-- Helper: a list `contains` check is membership. -/
lemma contains_iff_mem (s : String) (l : List String) :
    l.contains s = true ↔ s ∈ l :=
  List.elem_iff

/-- C10: for every Advance (Next) event whose source carries no user id,
the handler replies with the dedicated chat-id error message and stops:
the session phase, the current word and the page cache are unchanged, no
fetch is attempted, no progress call is made, and no error escapes. -/
theorem c10_missing_chat_id_guard
    (fetchPage : Option String → Option NotionApiResponse) (updateOk : Bool)
    (st : BotState) :
    handleTextEvent fetchPage updateOk st none "Next" =
      { state := st, replies := [[chatIdNotFoundText]]
        progressCalls := [], fetchCalls := 0, errored := false } :=
  rfl

/-- C9: the input classifier is an exact string match against the fixed
button-label set: a string is a valid label exactly when it is a member
of the six labels, and it is classified `unrecognized` exactly when it
is not a member of that set (string equality in the model being
character-for-character equality). -/
theorem c9_exact_match_classification (s : String) :
    (isValidButtonLabel s = true ↔ s ∈ buttonLabelValues) ∧
    (classifyInput s = .unrecognized ↔ s ∉ buttonLabelValues) := by
  constructor
  · exact contains_iff_mem s buttonLabelValues
  · by_cases h : s ∈ buttonLabelValues
    · have hv : isValidButtonLabel s = true := (contains_iff_mem s buttonLabelValues).mpr h
      unfold classifyInput
      rw [if_neg (by simp [hv])]
      constructor
      · intro hc
        split at hc <;> first | exact absurd hc (by simp) | skip
        split at hc <;> exact absurd hc (by simp)
      · intro hn
        exact absurd h hn
    · have hv : ¬ isValidButtonLabel s = true := fun hc =>
        h ((contains_iff_mem s buttonLabelValues).mp hc)
      unfold classifyInput
      rw [if_pos (by simp [hv])]
      simp [h]

/-- C9 witness: the iff applied at concrete strings: the exact label
"So So" is valid, while the lower-case variant "so so" is classified
unrecognized. -/
theorem c9_witness :
    isValidButtonLabel "So So" = true ∧ classifyInput "so so" = .unrecognized :=
  ⟨(c9_exact_match_classification "So So").1.mpr (by decide),
    (c9_exact_match_classification "so so").2.mpr (by decide)⟩

/-- A cache state holding one already-served card and a live cursor,
used as the prior state for the fetch-failure counterexample. -/
def cacheBeforeFail : Cache :=
  { data := [pageA], nextCursor := some "cursorX", currentIndex := 1 }

/-- C3 counterexample: starting from the cache `{[pageA], "cursorX", 1}`,
a refill whose fetch fails leaves the cache equal to the freshly reset
state `{[], null, 0}` — not equal to the prior triple: the buffer and in
particular the saved cursor are lost, because `getNextPage` resets the
cache before attempting the fetch. -/
theorem c3_counterexample :
    (getNextPage fetchFail cacheBeforeFail).result = .fetchError ∧
    (getNextPage fetchFail cacheBeforeFail).cache ≠ cacheBeforeFail ∧
    (getNextPage fetchFail cacheBeforeFail).cache = initialCache := by
  decide

/-- C3 amended: if `next()` triggers a refill and the fetch fails, the
error propagates to the caller as a fetch error, but the cache does not
keep its prior `{buffer, cursor, position}` triple: it has already been
reset to the initial empty state `{[], null, 0}` before the fetch, so
the saved cursor is lost. -/
theorem c3_amended_fetch_failure_resets_cache
    (fetchPage : Option String → Option NotionApiResponse) (c : Cache)
    (hex : c.data.length ≤ c.currentIndex)
    (hfail : fetchPage c.nextCursor = none) :
    getNextPage fetchPage c =
      { result := .fetchError, cache := Cache.reset c, fetchCalls := 1 } := by
  simp [getNextPage, hex, hfail]

/-- C3 witness: the amended statement applied at the concrete prior cache
`{[pageA], "cursorX", 1}` with the failing fetch. -/
theorem c3_amended_witness :
    getNextPage fetchFail cacheBeforeFail =
      { result := .fetchError, cache := Cache.reset cacheBeforeFail, fetchCalls := 1 } :=
  c3_amended_fetch_failure_resets_cache fetchFail cacheBeforeFail (by decide) rfl

/-- C2 counterexample: the initial cache is exhausted (`position >= len`)
with a terminal cursor (`null`), yet the first `next()` call against the
single two-card page source performs a fetch and serves a card instead
of returning none; and the three-call sequence yields card1, card2,
card1 (the third call refetching the same page from the start), not
card1, card2, deck-complete. -/
theorem c2_counterexample :
    initialCache.data.length ≤ initialCache.currentIndex ∧
    initialCache.nextCursor = none ∧
    (getNextPage fetchTwoCards initialCache).fetchCalls = 1 ∧
    (getNextPage fetchTwoCards initialCache).result = .ok (some pageA) ∧
    (runNexts [fetchTwoCards, fetchTwoCards, fetchTwoCards] initialCache).1 =
      [.ok (some pageA), .ok (some pageB), .ok (some pageA)] ∧
    (runNexts [fetchTwoCards, fetchTwoCards, fetchTwoCards] initialCache).2.2 = 2 := by
  decide


/-- C2 amended: whenever the buffer is exhausted, `next()` performs
exactly one fetch — even when the cursor is terminal, in which case it
refetches from the start (the saved `null` cursor is passed along) — and
it returns none exactly when that fetch succeeds with an empty page.
Consequently, with a source that keeps answering the same two-card page
with a `null` cursor, Advance, Advance, Advance yields card1, card2,
card1, and the deck-complete reply appears only when a refetch returns
an empty page. -/
theorem c2_amended_exhausted_always_fetches
    (fetchPage : Option String → Option NotionApiResponse) (c : Cache)
    (hex : c.data.length ≤ c.currentIndex) :
    (getNextPage fetchPage c).fetchCalls = 1 ∧
    ((getNextPage fetchPage c).result = .ok none ↔
      ∃ r, fetchPage c.nextCursor = some r ∧ r.results = []) := by
  constructor
  · cases hf : fetchPage c.nextCursor with
    | none => simp [getNextPage, hex, hf]
    | some r => by_cases hr : r.results.length = 0 <;> simp [getNextPage, hex, hf, hr]
  · cases hf : fetchPage c.nextCursor with
    | none => simp [getNextPage, hex, hf]
    | some r =>
      by_cases hr : r.results = []
      · simp [getNextPage, hex, hf, hr]
      · have hlen : ¬ r.results.length = 0 := by simpa [List.length_eq_zero] using hr
        simp [getNextPage, hex, hf, hlen, hr]

/-- C2 witness: the amended statement applied at the initial cache with a
source whose fetch succeeds with an empty page: exactly one fetch, and
the call returns none. -/
theorem c2_amended_witness :
    (getNextPage fetchEmptyPage initialCache).fetchCalls = 1 ∧
    (getNextPage fetchEmptyPage initialCache).result = .ok none := by
  have h := c2_amended_exhausted_always_fetches fetchEmptyPage initialCache (by decide)
  exact ⟨h.1, h.2.mpr ⟨_, rfl, rfl⟩⟩

/-- Helper: when the fetch fails, the call made exactly one fetch. -/
lemma getNextPage_fetchError_one_call
    (fetchPage : Option String → Option NotionApiResponse) (c : Cache)
    (h : (getNextPage fetchPage c).result = .fetchError) :
    (getNextPage fetchPage c).fetchCalls = 1 := by
  by_cases hex : c.data.length ≤ c.currentIndex
  · cases hf : fetchPage c.nextCursor with
    | none => simp [getNextPage, hex, hf]
    | some r =>
      exfalso
      by_cases hr : r.results.length = 0 <;> simp [getNextPage, hex, hf, hr] at h
  · simp [getNextPage, hex] at h

/-- C7 counterexample: an Advance on which the fetch fails produces no
reply batch at all — the user receives nothing, not a "try again" reply;
the exception escapes the event handler (`errored`), so the webhook
request is answered with an HTTP 500 status instead. -/
theorem c7_counterexample :
    (handleTextEvent fetchFail true initialBotState (some "userX") "Next").replies = [] ∧
    (handleTextEvent fetchFail true initialBotState (some "userX") "Next").errored = true ∧
    (handleTextEvent fetchFail true initialBotState (some "userX") "Next").fetchCalls = 1 := by
  decide

/-- C7 amended: on every Advance whose fetch fails, exactly one fetch is
attempted (no retries), but no reply is sent to the user for that turn:
the error escapes the event handler and the webhook answers the HTTP
request with a 500 error; the session phase and current word are
unchanged (only the cache has been reset by the failed refill). -/
theorem c7_amended_fetch_error_yields_no_reply
    (fetchPage : Option String → Option NotionApiResponse) (updateOk : Bool)
    (st : BotState) (uid : String)
    (hfail : (getNextPage fetchPage st.cache).result = .fetchError) :
    handleTextEvent fetchPage updateOk st (some uid) "Next" =
      { state := { st with cache := (getNextPage fetchPage st.cache).cache }
        replies := []
        progressCalls := []
        fetchCalls := 1
        errored := true } := by
  have h1 := getNextPage_fetchError_one_call fetchPage st.cache hfail
  unfold handleTextEvent
  rw [if_neg (by decide), if_pos rfl]
  simp only [hfail, h1]

/-- C7 witness: the amended statement applied at the initial state with
the failing content source. -/
theorem c7_amended_witness :
    handleTextEvent fetchFail true initialBotState (some "userX") "Next" =
      { state := { initialBotState with cache := (getNextPage fetchFail initialBotState.cache).cache }
        replies := []
        progressCalls := []
        fetchCalls := 1
        errored := true } :=
  c7_amended_fetch_error_yields_no_reply fetchFail true initialBotState "userX" rfl

/-- The state after one Next press on the initial state against a
one-card source: the card is shown (`userState = notUnderstood`). -/
def c1ShownState : BotState :=
  (handleTextEvent fetchOneCard true initialBotState (some "userX") "Next").state

/-- The state after a further Next press whose refetch returns an empty
page: the deck is exhausted. -/
def c1ViolatingState : BotState :=
  (handleTextEvent fetchEmptyPage true c1ShownState (some "userX") "Next").state

/-- C1 counterexample: a reachable state in which the current word is
none while the phase is not Idle.  When the Advance finds the deck
exhausted, the handler clears `currentWord` and sends the deck-complete
reply but never resets `userState`, so the pair
`{phase = Shown, current = none}` is reached — the session is not reset
to `{Idle, none}` and the claimed invariant
`current == none ⟺ phase == Idle` fails. -/
theorem c1_counterexample :
    Reachable c1ViolatingState ∧
    c1ViolatingState.currentWord = none ∧
    c1ViolatingState.userState ≠ .notDisplayed := by
  refine ⟨?_, by decide, by decide⟩
  exact Reachable.step fetchEmptyPage true c1ShownState (some "userX") "Next"
    (Reachable.step fetchOneCard true initialBotState (some "userX") "Next" Reachable.init)

/-- Helper: one processed event preserves the one direction of the
invariant that does hold: in the Idle phase there is no current word. -/
lemma handleTextEvent_preserves_idle_none
    (fetchPage : Option String → Option NotionApiResponse) (updateOk : Bool)
    (st : BotState) (userId : Option String) (userMessage : String)
    (ih : st.userState = .notDisplayed → st.currentWord = none) :
    (handleTextEvent fetchPage updateOk st userId userMessage).state.userState = .notDisplayed →
    (handleTextEvent fetchPage updateOk st userId userMessage).state.currentWord = none := by
  rcases st with ⟨us, cw, ca⟩
  unfold handleTextEvent
  split
  · cases cw <;> simp_all
  · split
    · cases userId with
      | none => simp_all
      | some uid =>
        cases hres : (getNextPage fetchPage ca).result with
        | fetchError => simp_all
        | ok p => cases p <;> simp_all
    · split
      · cases us <;> cases cw <;> simp_all [noopResult]
      · split
        · cases us <;> cases cw <;> simp_all [noopResult]
        · simp_all [noopResult]

/-- C1 amended: only one direction of the claimed invariant holds for all
reachable states: if the phase is Idle then the current word is none.
The converse fails (see the counterexample): when an Advance finds the
deck exhausted the code sets the current word to none and replies that
the deck is complete, but leaves the phase at its prior value, so
`{Shown, none}` (and likewise `{Revealed, none}`) is reachable. -/
theorem c1_amended_idle_implies_no_current
    (st : BotState) (h : Reachable st) :
    st.userState = .notDisplayed → st.currentWord = none := by
  induction h with
  | init => intro; rfl
  | step fetchPage updateOk st' userId userMessage _ ih =>
    exact handleTextEvent_preserves_idle_none fetchPage updateOk st' userId userMessage ih

/-- C1 witness: the amended invariant applied at the concrete reachable
state produced by an unrecognized message on the initial state, whose
phase is Idle. -/
theorem c1_amended_witness :
    (handleTextEvent fetchFail true initialBotState none "hello").state.currentWord = none :=
  c1_amended_idle_implies_no_current _
    (Reachable.step fetchFail true initialBotState none "hello" Reachable.init) (by decide)

/-- C4: the `userState`, `currentWord` and cache globals are shared by all
conversations, so one conversation does change the state the other
observes.  Concretely: before user A acts, an unrecognized text from
user B is answered with the default unsupported-message reply; after a
single Next event of user A (distinct key), the very same inbound event
of user B is answered with user A's current word, and B observes the
phase A produced. -/
theorem c4_cross_conversation_state_bleed :
    ("userA" : String) ≠ "userB" ∧
    (handleTextEvent fetchOneCard true initialBotState (some "userB") "hello").replies =
      [[unsupportedMessageText]] ∧
    (handleTextEvent fetchOneCard true
        (handleTextEvent fetchOneCard true initialBotState (some "userA") "Next").state
        (some "userB") "hello").replies = [["phraseA"]] ∧
    (handleTextEvent fetchOneCard true initialBotState (some "userA") "Next").state.userState =
      .notUnderstood := by
  decide

/-- C5: in every session state, a Grade input (one of the four feedback
labels) is a no-op — state unchanged, no reply, no progress call, no
fetch — unless the phase is Revealed (`userState = understood`), and a
Reveal input ("Meaning") is a no-op unless the phase is Shown
(`userState = notUnderstood`). -/
theorem c5_out_of_phase_inputs_ignored
    (fetchPage : Option String → Option NotionApiResponse) (updateOk : Bool)
    (st : BotState) (userId : Option String) :
    (∀ msg, msg ∈ feedbackLabelValues → st.userState ≠ .understood →
      handleTextEvent fetchPage updateOk st userId msg = noopResult st) ∧
    (st.userState ≠ .notUnderstood →
      handleTextEvent fetchPage updateOk st userId "Meaning" = noopResult st) := by
  rcases st with ⟨us, cw, ca⟩
  constructor
  · intro msg hmsg h
    fin_cases hmsg <;> cases us <;> cases cw <;> first | rfl | exact absurd rfl h
  · intro h
    cases us <;> cases cw <;> first | rfl | exact absurd rfl h

/-- The state after a single Advance on a one-card source: the phase is
Shown. -/
def c5ShownState : BotState :=
  (handleTextEvent fetchOneCard true initialBotState (some "userX") "Next").state

/-- C5 witness (scenario C): after a single Advance the phase is Shown,
and Grade("Good") is ignored — no ProgressSink call, no reply, state
unchanged. -/
theorem c5_witness :
    c5ShownState.userState = .notUnderstood ∧
    handleTextEvent fetchOneCard true c5ShownState (some "userX") "Good" = noopResult c5ShownState := by
  refine ⟨by decide, ?_⟩
  exact (c5_out_of_phase_inputs_ignored fetchOneCard true c5ShownState (some "userX")).1
    "Good" (by decide) (by decide)

/-- Helper: the feedback branch in phase Revealed with a current word:
the phase advances to Shown before the update is attempted, the update
call is recorded, and the reply text depends on the update outcome. -/
lemma handleTextEvent_grade_active
    (fetchPage : Option String → Option NotionApiResponse) (updateOk : Bool)
    (st : BotState) (userId : Option String) (msg : String) (w : NotionPage)
    (hmsg : msg ∈ feedbackLabelValues)
    (hrev : st.userState = .understood) (hcur : st.currentWord = some w) :
    handleTextEvent fetchPage updateOk st userId msg =
      { state := { st with userState := .notUnderstood }
        replies := [[if updateOk then gradeSuccessText msg else gradeFailureText msg]]
        progressCalls := [(w.id, msg)]
        fetchCalls := 0, errored := false } := by
  fin_cases hmsg <;>
  · unfold handleTextEvent
    rw [if_neg (by decide), if_neg (by decide), if_neg (by decide), if_pos (by decide)]
    rw [hrev, hcur]

/-- Helper: a Next event whose `getNextPage` call returns a card shows
that card and moves the phase to Shown. -/
lemma handleTextEvent_next_serves
    (fetchPage : Option String → Option NotionApiResponse) (updateOk : Bool)
    (st : BotState) (uid : String) (w : NotionPage)
    (h : (getNextPage fetchPage st.cache).result = .ok (some w)) :
    handleTextEvent fetchPage updateOk st (some uid) "Next" =
      { state := { userState := .notUnderstood, currentWord := some w
                   cache := (getNextPage fetchPage st.cache).cache }
        replies := [[w.properties.phrase]]
        progressCalls := [], fetchCalls := (getNextPage fetchPage st.cache).fetchCalls
        errored := false } := by
  unfold handleTextEvent
  rw [if_neg (by decide), if_pos rfl]
  simp only [h]

/-- C6: a Grade event in phase Revealed whose progress submission fails
produces the failure reply, which differs from the success reply; the
progress call was attempted exactly once; the phase still advances out
of Revealed (to Shown); and a subsequent Advance that finds a next card
proceeds to it. -/
theorem c6_persist_failure_distinguishable_and_advances
    (fetchPage : Option String → Option NotionApiResponse)
    (st : BotState) (userId : Option String) (w : NotionPage) (msg : String)
    (hrev : st.userState = .understood) (hcur : st.currentWord = some w)
    (hmsg : msg ∈ feedbackLabelValues) :
    (handleTextEvent fetchPage false st userId msg).replies = [[gradeFailureText msg]] ∧
    gradeFailureText msg ≠ gradeSuccessText msg ∧
    (handleTextEvent fetchPage false st userId msg).progressCalls = [(w.id, msg)] ∧
    (handleTextEvent fetchPage false st userId msg).state.userState = .notUnderstood ∧
    (∀ (f2 : Option String → Option NotionApiResponse) (u2 : Bool) (uid2 : String) (w2 : NotionPage),
      (getNextPage f2 (handleTextEvent fetchPage false st userId msg).state.cache).result = .ok (some w2) →
      (handleTextEvent f2 u2 (handleTextEvent fetchPage false st userId msg).state (some uid2) "Next").replies
        = [[w2.properties.phrase]] ∧
      (handleTextEvent f2 u2 (handleTextEvent fetchPage false st userId msg).state (some uid2) "Next").state.currentWord
        = some w2 ∧
      (handleTextEvent f2 u2 (handleTextEvent fetchPage false st userId msg).state (some uid2) "Next").state.userState
        = .notUnderstood) := by
  rw [handleTextEvent_grade_active fetchPage false st userId msg w hmsg hrev hcur]
  refine ⟨rfl, ?_, rfl, rfl, ?_⟩
  · fin_cases hmsg <;> decide
  · intro f2 u2 uid2 w2 h2
    rw [handleTextEvent_next_serves f2 u2 _ uid2 w2 h2]
    exact ⟨rfl, rfl, rfl⟩

/-- Scenario D, step 1: Advance on the two-card source. -/
def c6ShownState : BotState :=
  (handleTextEvent fetchTwoCards true initialBotState (some "userX") "Next").state

/-- Scenario D, step 2: Reveal; the phase is Revealed with card1 current. -/
def c6RevealedState : BotState :=
  (handleTextEvent fetchTwoCards true c6ShownState (some "userX") "Meaning").state

/-- C6 witness (scenario D): Advance, Reveal, then Grade("Never Better")
with the progress sink failing: the user sees the failure-reply text,
and a subsequent Advance proceeds to the next card (card2). -/
theorem c6_witness :
    (handleTextEvent fetchTwoCards false c6RevealedState (some "userX") "Never Better").replies
      = [[gradeFailureText "Never Better"]] ∧
    gradeFailureText "Never Better" ≠ gradeSuccessText "Never Better" ∧
    (handleTextEvent fetchTwoCards false c6RevealedState (some "userX") "Never Better").state.userState
      = .notUnderstood ∧
    (handleTextEvent fetchTwoCards true
      (handleTextEvent fetchTwoCards false c6RevealedState (some "userX") "Never Better").state
      (some "userX") "Next").state.currentWord = some pageB := by
  have h := c6_persist_failure_distinguishable_and_advances fetchTwoCards c6RevealedState
    (some "userX") pageA "Never Better" (by decide) (by decide) (by decide)
  exact ⟨h.1, h.2.1, h.2.2.2.1, (h.2.2.2.2 fetchTwoCards true "userX" pageB (by decide)).2.1⟩

/-- Helper: while `position < len(buffer)`, `next()` serves
`buffer[position]`, increments the position, leaves the buffer and
cursor alone, and performs no fetch. -/
lemma getNextPage_in_buffer
    (fetchPage : Option String → Option NotionApiResponse) (c : Cache)
    (h : c.currentIndex < c.data.length) :
    getNextPage fetchPage c =
      { result := .ok c.data[c.currentIndex]?
        cache := { c with currentIndex := c.currentIndex + 1 }
        fetchCalls := 0 } := by
  unfold getNextPage
  rw [if_neg (by omega)]

/-- Helper: every single `next()` call performs at most one fetch. -/
lemma getNextPage_fetchCalls_le_one
    (fetchPage : Option String → Option NotionApiResponse) (c : Cache) :
    (getNextPage fetchPage c).fetchCalls ≤ 1 := by
  by_cases hex : c.data.length ≤ c.currentIndex
  · cases hf : fetchPage c.nextCursor with
    | none => simp [getNextPage, hex, hf]
    | some r => by_cases hr : r.results.length = 0 <;> simp [getNextPage, hex, hf, hr]
  · simp [getNextPage, hex]

/-- Helper: a refill whose fetch succeeds with a nonempty page installs
the fetched page as the new buffer, serves its first card and sets the
position to 1 — service within the new buffer starts at index 0. -/
lemma getNextPage_refill_success
    (fetchPage : Option String → Option NotionApiResponse) (c : Cache)
    (r : NotionApiResponse)
    (hex : c.data.length ≤ c.currentIndex) (hf : fetchPage c.nextCursor = some r)
    (hne : r.results ≠ []) :
    getNextPage fetchPage c =
      { result := .ok r.results[0]?
        cache := { data := r.results, nextCursor := r.next_cursor, currentIndex := 1 }
        fetchCalls := 1 } := by
  have hlen : ¬ r.results.length = 0 := by simpa [List.length_eq_zero] using hne
  simp [getNextPage, hex, hf, hlen]

/-- Helper: any sequence of `next()` calls that stays inside the current
buffer serves `buffer[position], buffer[position+1], ...` in order —
consecutive, strictly increasing indices, so no card of the buffer is
served twice — and performs no fetch at all. -/
lemma runNexts_in_buffer
    (fs : List (Option String → Option NotionApiResponse)) (c : Cache)
    (h : c.currentIndex + fs.length ≤ c.data.length) :
    runNexts fs c =
      ((List.range fs.length).map (fun k => PageResult.ok c.data[c.currentIndex + k]?),
        { c with currentIndex := c.currentIndex + fs.length }, 0) := by
  induction fs generalizing c with
  | nil => simp [runNexts]
  | cons f rest ih =>
    have hlt : c.currentIndex < c.data.length := by
      simp only [List.length_cons] at h
      omega
    have hrec := ih { c with currentIndex := c.currentIndex + 1 }
      (by simp only [List.length_cons] at h ⊢; omega)
    simp only [runNexts, getNextPage_in_buffer f c hlt, hrec, Prod.mk.injEq]
    refine ⟨?_, ?_, ?_⟩
    · simp only [List.length_cons, List.range_succ_eq_map, List.map_cons, List.map_map]
      congr 1
      refine List.map_congr_left ?_
      intro k _
      have hk2 : c.currentIndex + 1 + k = c.currentIndex + (k + 1) := by omega
      simp [Function.comp_apply, hk2]
    · congr 1
      simp only [List.length_cons]
      omega
    · trivial

/-- C8: the serving discipline of the cache: (1) each `next()` call
performs at most one fetch; (2) while `position < len(buffer)` no fetch
happens and `buffer[position]` is served with the position incremented;
(3) a successful nonempty refill serves the new buffer from index 0;
(4) any call sequence staying inside one buffer returns the cards in
original fetch order at strictly increasing indices (no card served
twice from the same buffer) with zero fetches. -/
theorem c8_cache_serving_discipline
    (fetchPage : Option String → Option NotionApiResponse) (c : Cache) :
    (getNextPage fetchPage c).fetchCalls ≤ 1 ∧
    (c.currentIndex < c.data.length →
      getNextPage fetchPage c =
        { result := .ok c.data[c.currentIndex]?
          cache := { c with currentIndex := c.currentIndex + 1 }
          fetchCalls := 0 }) ∧
    (∀ r : NotionApiResponse,
      c.data.length ≤ c.currentIndex → fetchPage c.nextCursor = some r → r.results ≠ [] →
      getNextPage fetchPage c =
        { result := .ok r.results[0]?
          cache := { data := r.results, nextCursor := r.next_cursor, currentIndex := 1 }
          fetchCalls := 1 }) ∧
    (∀ fs : List (Option String → Option NotionApiResponse),
      c.currentIndex + fs.length ≤ c.data.length →
      runNexts fs c =
        ((List.range fs.length).map (fun k => PageResult.ok c.data[c.currentIndex + k]?),
          { c with currentIndex := c.currentIndex + fs.length }, 0)) :=
  ⟨getNextPage_fetchCalls_le_one fetchPage c,
   fun h => getNextPage_in_buffer fetchPage c h,
   fun r hex hf hne => getNextPage_refill_success fetchPage c r hex hf hne,
   fun fs h => runNexts_in_buffer fs c h⟩

/-- C8 witness: a two-card buffer with the position at 0 serves card1
then card2 in order with no fetch, even though the supplied fetch
oracle would fail if consulted. -/
theorem c8_witness :
    runNexts [fetchFail, fetchFail]
        { data := [pageA, pageB], nextCursor := some "curY", currentIndex := 0 } =
      ([PageResult.ok (some pageA), PageResult.ok (some pageB)],
        { data := [pageA, pageB], nextCursor := some "curY", currentIndex := 2 }, 0) := by
  have h := (c8_cache_serving_discipline fetchFail
    { data := [pageA, pageB], nextCursor := some "curY", currentIndex := 0 }).2.2.2
    [fetchFail, fetchFail] (by decide)
  rw [h]
  decide

end EnglishPalBot
